import Mathlib

/-!
Shallow embedding of `src/main.py` (a Speckle Automate function that is meant
to extract the Point objects of a model and tabulate their x/y coordinates
into a spreadsheet).

The external SDK boundary (receive_version, flatten_base, the pandas
DataFrame, the AutomationContext calls) is modelled explicitly:
`automate_function` takes the already-flattened object list as input and
returns a record of the effects performed on the context together with the
resulting file system.
-/

/-- A Python runtime value, as far as the filter comparison on line 56 of
`main.py` is concerned: either a string (the `speckle_type` attribute of a
flattened object) or a class object (the imported `Point` class). -/
inductive PyVal where
  | vStr (s : String)
  | vClass (name : String)
deriving DecidableEq

/-- Python `==` restricted to the values above: two strings compare by
content, two class objects by identity (here: by fully qualified name), and
a string never equals a class object. -/
def pyEq : PyVal → PyVal → Bool
  | .vStr a, .vStr b => a == b
  | .vClass a, .vClass b => a == b
  | _, _ => false

/-- The `Point` class object imported on line 15 of `main.py`
(`from specklepy.objects.geometry import Point`). -/
def Point : PyVal := .vClass "Objects.Geometry.Point"

/-- A flattened Speckle base object: its `speckle_type` tag is a string, its
identity an optional `id`, and (for point geometry) numeric `x` and `y`
fields. The code never computes with the coordinates, only copies them, so
they are modelled as rationals. -/
structure BaseObject where
  speckle_type : String
  id : Option String
  x : Rat
  y : Rat
deriving DecidableEq

instance : Inhabited BaseObject := ⟨⟨"", none, 0, 0⟩⟩

/-- The list comprehension of lines 53–57 of `main.py`:
`[b for b in flatten_base(version_root_object) if b.speckle_type == Point]`.
The comparison is the Python `==` between the string attribute and the
`Point` class object. -/
def objects_with_search_speckle_type (flattened : List BaseObject) : List BaseObject :=
  flattened.filter (fun b => pyEq (.vStr b.speckle_type) Point)

/-- Spec-side filter, for refinement comparison only, following the spec's
words: "select nodes whose declared type equals \x7bit is the string\x7d
\"Point\"" — keep objects whose `speckle_type` string equals "Point". -/
def specPointFilter (flattened : List BaseObject) : List BaseObject :=
  flattened.filter (fun b => b.speckle_type == "Point")

/-- A cell of the pandas DataFrame: the Point_Number column holds integers,
the coordinate columns hold numbers. -/
inductive PdCell where
  | pdInt (n : Nat)
  | pdNum (q : Rat)
deriving DecidableEq

/-- The spreadsheet artifact written by `df.to_excel(..., index=False)`:
an ordered header of column names and the data rows. -/
structure ExcelFile where
  header : List String
  rows : List (List PdCell)
deriving DecidableEq

/-- The loop of lines 75–79 of `main.py`: for `i in range(0, count)` write
row `i` with cells `i`, `point.x`, `point.y`, where
`point = objects_with_search_speckle_type[i]`. -/
def tabulateRows (pts : List BaseObject) : List (List PdCell) :=
  (List.range pts.length).map fun i =>
    [.pdInt i, .pdNum (pts.getD i default).x, .pdNum (pts.getD i default).y]

/-- Lines 69–79 of `main.py`: the DataFrame with the three columns created
in order `Point_Number`, `X-Coordinate`, `Y-Coordinate`, filled by the loop. -/
def makeDf (pts : List BaseObject) : ExcelFile :=
  { header := ["Point_Number", "X-Coordinate", "Y-Coordinate"],
    rows := tabulateRows pts }

/-- One `attach_result_to_objects` call on the automation context. -/
structure AttachedResult where
  category : String
  message : String
deriving DecidableEq

/-- The observable effects of one run of `automate_function` on the
automation context and the file system: results attached, spreadsheet files
written (path and content), paths handed to `store_file_result`, messages
passed to `mark_run_success`, messages passed to `mark_run_failed` (the
script never calls it, the field records that), and whether
`set_context_view` was called. -/
structure RunResult where
  attachedResults : List AttachedResult
  writtenFiles : List (String × ExcelFile)
  storedFilePaths : List String
  successMessages : List String
  failedMessages : List String
  contextViewSet : Bool
deriving DecidableEq

/-- The function-author inputs of `main.py` (lines 18–27): a single secret
string field. -/
structure FunctionInputs where
  whisper_message : String
deriving DecidableEq

/-- Writing a file: the file system maps paths to spreadsheet contents and a
write replaces whatever was stored at that path before. -/
def updateFs (fs : String → Option ExcelFile) (p : String) (c : ExcelFile) :
    String → Option ExcelFile :=
  fun q => if q = p then some c else fs q

/-- POSIX relative-path resolution for the one shape used here: a leading
"./" segment is redundant, so "./f" and "f" denote the same file relative to
the working directory. -/
def resolveRelPath (p : String) : String :=
  if p.data.take 2 = ['.', '/'] then String.mk (p.data.drop 2) else p

/-- Lines 61–92 of `main.py`, the `count > 0` branch: attach a result,
build the DataFrame, write it to `Model_Coordinates.xlsx`, store the file
result under `./Model_Coordinates.xlsx`, mark the run successful and set the
context view. -/
def foundBranch (pts : List BaseObject) (fs : String → Option ExcelFile) :
    RunResult × (String → Option ExcelFile) :=
  let count := pts.length
  let df := makeDf pts
  let excel_file_path := "Model_Coordinates.xlsx"
  ({ attachedResults :=
       [⟨"Point Types", s!"This model has {count} Point data objects present."⟩],
     writtenFiles := [(excel_file_path, df)],
     storedFilePaths := ["./Model_Coordinates.xlsx"],
     successMessages := [s!"Automation successfully run: Found {count} Points in the model"],
     failedMessages := [],
     contextViewSet := true },
   updateFs fs excel_file_path df)

/-- Lines 37–95 of `main.py`: filter the flattened objects, count them, and
take the found branch or the not-found branch (which only marks the run
successful with "No Point types found in the model."). The flattened object
list stands for `flatten_base(automate_context.receive_version())`, the
external input boundary. -/
def automate_function (flattened : List BaseObject) (function_inputs : FunctionInputs)
    (fs : String → Option ExcelFile) : RunResult × (String → Option ExcelFile) :=
  let objs := objects_with_search_speckle_type flattened
  let count := objs.length
  if count > 0 then
    foundBranch objs fs
  else
    ({ attachedResults := [],
       writtenFiles := [],
       storedFilePaths := [],
       successMessages := ["No Point types found in the model."],
       failedMessages := [],
       contextViewSet := false }, fs)

/-- A concrete point-tagged object used as a test input. -/
def pt0 : BaseObject := { speckle_type := "Point", id := some "p0", x := 1, y := 2 }

/-- A string attribute never compares equal to the `Point` class object. -/
theorem pyEq_vStr_Point (s : String) : pyEq (.vStr s) Point = false := rfl

/-- The filter of lines 53–57 matches nothing, whatever the input. -/
theorem objects_with_search_speckle_type_eq_nil (flattened : List BaseObject) :
    objects_with_search_speckle_type flattened = [] := by
  induction flattened with
  | nil => rfl
  | cons b t ih =>
      simp [objects_with_search_speckle_type, List.filter_cons, pyEq_vStr_Point]

/-- Every row built by the tabulation loop has the shape (i, x i, y i). -/
theorem tabulateRows_getD (pts : List BaseObject) (i : Nat) (h : i < pts.length) :
    (tabulateRows pts).getD i []
      = [.pdInt i, .pdNum (pts.getD i default).x, .pdNum (pts.getD i default).y] := by
  simp [tabulateRows, List.getD, List.getElem?_map, List.getElem?_range, h]

/-- The tabulation loop writes as many rows as there are matched points. -/
theorem tabulateRows_length (pts : List BaseObject) :
    (tabulateRows pts).length = pts.length := by
  simp [tabulateRows]

/-- C1: the spec says the filter keeps exactly the nodes whose
`speckle_type` tag equals the string "Point". The code compares the string
attribute against the `Point` class object, so a node carrying the tag
"Point" is nevertheless not matched, while the spec-side filter keeps it. -/
theorem C1_filter_misses_point_tag :
    pt0.speckle_type = "Point" ∧
    objects_with_search_speckle_type [pt0] = [] ∧
    specPointFilter [pt0] = [pt0] :=
  ⟨rfl, rfl, rfl⟩

/-- C2: the spec says a model with N point objects yields a table with N
rows. On a flattened graph holding one point-tagged object, the run matches
nothing, builds no table, writes no file, and takes the not-found message
branch instead of producing one row. -/
theorem C2_one_point_no_table :
    specPointFilter [pt0] = [pt0] ∧
    (automate_function [pt0] ⟨"w"⟩ (fun _ => none)).1.writtenFiles = [] ∧
    (automate_function [pt0] ⟨"w"⟩ (fun _ => none)).1.successMessages
      = ["No Point types found in the model."] :=
  ⟨rfl, rfl, rfl⟩

/-- C3: because the filter compares the string-valued `speckle_type` against
the `Point` class object, no node ever matches: for every input the matched
list is empty, the count is 0, no file is written, and the run takes the
"No Point types found in the model." branch. -/
theorem C3_matched_always_empty (flattened : List BaseObject)
    (function_inputs : FunctionInputs) (fs : String → Option ExcelFile) :
    objects_with_search_speckle_type flattened = [] ∧
    (objects_with_search_speckle_type flattened).length = 0 ∧
    (automate_function flattened function_inputs fs).1.writtenFiles = [] ∧
    (automate_function flattened function_inputs fs).1.successMessages
      = ["No Point types found in the model."] := by
  have h := objects_with_search_speckle_type_eq_nil flattened
  refine ⟨h, by simp [h], ?_, ?_⟩ <;> simp [automate_function, h]

/-- C4: when the number of matched points is zero, no spreadsheet file is
written, no file result is stored, the file system is untouched, and the run
is marked successful with the "no points found" message, never failed. -/
theorem C4_zero_matches_no_file (flattened : List BaseObject)
    (function_inputs : FunctionInputs) (fs : String → Option ExcelFile)
    (h : (objects_with_search_speckle_type flattened).length = 0) :
    (automate_function flattened function_inputs fs).1.writtenFiles = [] ∧
    (automate_function flattened function_inputs fs).1.storedFilePaths = [] ∧
    (automate_function flattened function_inputs fs).1.successMessages
      = ["No Point types found in the model."] ∧
    (automate_function flattened function_inputs fs).1.failedMessages = [] ∧
    (automate_function flattened function_inputs fs).2 = fs := by
  refine ⟨?_, ?_, ?_, ?_, ?_⟩ <;> simp [automate_function, h]

/-- Witness for C4 at the empty flattened graph. -/
theorem C4_zero_matches_no_file_witness :
    (automate_function [] ⟨"secret"⟩ (fun _ => none)).1.writtenFiles = [] ∧
    (automate_function [] ⟨"secret"⟩ (fun _ => none)).1.successMessages
      = ["No Point types found in the model."] :=
  ⟨(C4_zero_matches_no_file [] ⟨"secret"⟩ (fun _ => none) rfl).1,
   (C4_zero_matches_no_file [] ⟨"secret"⟩ (fun _ => none) rfl).2.2.1⟩

/-- C5: on every run, exactly one message is passed to the success marker —
in the found branch and the not-found branch alike — and the failure marker
is never called. -/
theorem C5_success_marked_once (flattened : List BaseObject)
    (function_inputs : FunctionInputs) (fs : String → Option ExcelFile) :
    (automate_function flattened function_inputs fs).1.successMessages.length = 1 ∧
    (automate_function flattened function_inputs fs).1.failedMessages = [] := by
  rcases Nat.eq_zero_or_pos (objects_with_search_speckle_type flattened).length with h | h
  · simp [automate_function, h]
  · simp [automate_function, foundBranch, h]

/-- C6: round-trip of coordinates — the row written at discovery index `i`
holds the index `i` and the `x` and `y` fields read from the matched point
at position `i`, unchanged (cells listed in the column order Point_Number,
X-Coordinate, Y-Coordinate). -/
theorem C6_coordinate_roundtrip (pts : List BaseObject) (i : Nat)
    (h : i < pts.length) :
    (tabulateRows pts).getD i []
      = [.pdInt i, .pdNum (pts.getD i default).x, .pdNum (pts.getD i default).y] :=
  tabulateRows_getD pts i h

/-- Witness for C6 on a one-point list at index 0. -/
theorem C6_coordinate_roundtrip_witness :
    0 < ([pt0] : List BaseObject).length ∧
    (tabulateRows [pt0]).getD 0 []
      = [.pdInt 0, .pdNum (([pt0] : List BaseObject).getD 0 default).x,
         .pdNum (([pt0] : List BaseObject).getD 0 default).y] :=
  ⟨by decide, C6_coordinate_roundtrip [pt0] 0 (by decide)⟩

/-- C7: after tabulation the number of rows of the DataFrame equals the
number of matched point objects, for every input. -/
theorem C7_row_count_eq_matched_count (flattened : List BaseObject) :
    (makeDf (objects_with_search_speckle_type flattened)).rows.length
      = (objects_with_search_speckle_type flattened).length := by
  simp [makeDf, tabulateRows_length]

/-- C8: every file written by the file-producing branch carries exactly the
three columns Point_Number, X-Coordinate and Y-Coordinate, in that order. -/
theorem C8_three_columns (pts : List BaseObject) (fs : String → Option ExcelFile) :
    (foundBranch pts fs).1.writtenFiles.map (fun wf => wf.2.header)
      = [["Point_Number", "X-Coordinate", "Y-Coordinate"]] ∧
    (makeDf pts).header.length = 3 :=
  ⟨rfl, rfl⟩

/-- C9: two runs that differ only in the secret `whisper_message` input
produce identical effects and file systems — the input is never read. -/
theorem C9_whisper_noninterference (flattened : List BaseObject)
    (fs : String → Option ExcelFile) (w1 w2 : String) :
    automate_function flattened ⟨w1⟩ fs = automate_function flattened ⟨w2⟩ fs :=
  rfl

/-- C10: whenever the file-producing branch runs, the spreadsheet is written
to the fixed path "Model_Coordinates.xlsx" independent of the input, the
path handed to the store-file-result call is "./Model_Coordinates.xlsx"
which resolves to that same file, and the write overwrites whatever the
file system previously held at that path. -/
theorem C10_fixed_path_and_overwrite (pts : List BaseObject)
    (fs : String → Option ExcelFile) :
    (foundBranch pts fs).1.writtenFiles.map (fun wf => wf.1)
      = ["Model_Coordinates.xlsx"] ∧
    (foundBranch pts fs).1.storedFilePaths = ["./Model_Coordinates.xlsx"] ∧
    resolveRelPath "./Model_Coordinates.xlsx" = "Model_Coordinates.xlsx" ∧
    (foundBranch pts fs).2 "Model_Coordinates.xlsx" = some (makeDf pts) := by
  refine ⟨rfl, rfl, by decide, ?_⟩
  simp [foundBranch, updateFs]
